import Mathlib

/-!
Verification development for the f1-podium-probability-ml pipeline.

The Python sources are shallowly embedded as executable Lean definitions:

* `src/ingest/ergast_client.py`   — retrying HTTP client and pagination loop
  (`ErgastClient._get_json`, `ErgastClient.fetch_all`); the network is
  abstracted as a function from request parameters to responses, and the
  unbounded `while True` loop is given explicit fuel.
* `src/clean/build_clean_tables.py` — payload extraction (`_extract_table`)
  and the race/result table builders (`build_fct_races`, `build_fct_results`);
  JSON payloads are modelled by the inductive type `J`, and the raw snapshot
  store by a function from year to payload.
* `src/clean/build_modeling_table.py` — the DNF classifier
  (`compute_is_dnf`) and the modeling-table builder (`main`), the latter
  embedded over an untyped column-named dataframe model `DF` so that
  pandas column-lookup failures (`KeyError`) are observable.

Python exception classes are modelled by `BuildError`: `keyError` stands for
the `KeyError` raised on a missing dict key / dataframe column (the spec's
`SchemaError` for `_extract_table`), `integrityError` for the `ValueError`s
raised by the uniqueness / non-null / join-validation checks (the spec's
`IntegrityError`), and `valueError` for `int()` conversion failures.
Machine floats never influence any verified property: every numeric column a
claim touches holds integers, so numeric coercion is modelled over `Int`.
-/

namespace F1

/-- JSON values as delivered by the Ergast/Jolpica API.  Numbers are
restricted to integers: every numeric field the claims touch (season, round,
grid, position, laps, points in the fixtures) is integral. -/
inductive J where
  | null : J
  | str (s : String) : J
  | num (n : Int) : J
  | arr (xs : List J) : J
  | obj (fields : List (String × J)) : J

/-- Python `dict.get(k)` (no default): `some` the first binding of `k`, else
`none`; non-dict values have no keys. -/
def J.get? (j : J) (k : String) : Option J :=
  match j with
  | .obj fs => (fs.find? (fun p => p.1 == k)).map (fun p => p.2)
  | _ => none

/-- Python `dict.get(k, d)`. -/
def J.getD (j : J) (k : String) (d : J) : J :=
  (j.get? k).getD d

/-- Python `k in d` on a dict (false on non-dicts). -/
def J.hasKey (j : J) (k : String) : Bool :=
  (j.get? k).isSome

/-- View a JSON value as a list (iteration over a non-list yields nothing). -/
def J.asArr (j : J) : List J :=
  match j with
  | .arr xs => xs
  | _ => []

/-- View a JSON value as a string if it is one. -/
def J.asStr? (j : J) : Option String :=
  match j with
  | .str s => some s
  | _ => none

/-- Error taxonomy for the build steps (see the module docstring for the
correspondence with the Python exception classes and the spec's names). -/
inductive BuildError where
  | keyError (msg : String) : BuildError
  | valueError (msg : String) : BuildError
  | integrityError (msg : String) : BuildError
deriving DecidableEq, Repr

/-- The fixed container-probing order of `_extract_table`
(`build_clean_tables.py` line 32). -/
def containerPriority : List String :=
  ["RaceTable", "DriverTable", "ConstructorTable", "CircuitTable"]

/-- The `for table_name in (...)` loop of `_extract_table`: for each container
name in order, take `tbl = mr.get(table_name, {})` and return
`tbl.get(table_key, [])` as soon as `table_key in tbl`. -/
def extractLoop (mr : J) (key : String) : List String → Option J
  | [] => none
  | n :: rest =>
    let tbl := mr.getD n (J.obj [])
    if tbl.hasKey key then some (tbl.getD key (J.arr [])) else extractLoop mr key rest

/-- Embeds `_extract_table` (`build_clean_tables.py` lines 19-42): probe the
containers in priority order; if none contains `key` and `key = "Races"`,
return `mr.get("RaceTable", {}).get("Races", [])`; otherwise raise `KeyError`
naming the missing key. -/
def extract_table (payload : J) (key : String) : Except BuildError J :=
  let mr := payload.getD "MRData" (J.obj [])
  match extractLoop mr key containerPriority with
  | some v => Except.ok v
  | none =>
    if key = "Races" then
      Except.ok ((mr.getD "RaceTable" (J.obj [])).getD "Races" (J.arr []))
    else
      Except.error (BuildError.keyError ("Could not find table_key=" ++ key ++ " in payload"))

/-- The first container (in priority order) whose dict contains `key` —
the reference formulation of the probing loop used to state what
`_extract_table` returns. -/
def firstContainer (mr : J) (key : String) : Option J :=
  (containerPriority.map (fun n => mr.getD n (J.obj []))).find? (fun t => t.hasKey key)

theorem extractLoop_eq_firstContainer (mr : J) (key : String) (names : List String) :
    extractLoop mr key names =
      ((names.map (fun n => mr.getD n (J.obj []))).find? (fun t => t.hasKey key)).map
        (fun t => t.getD key (J.arr [])) := by
  induction names with
  | nil => rfl
  | cons n rest ih =>
    simp only [extractLoop, List.map_cons, List.find?]
    cases h : (mr.getD n (J.obj [])).hasKey key with
    | true => simp [h]
    | false => simp [h, ih]

theorem getD_of_hasKey_false {j : J} {k : String} (d : J) (h : j.hasKey k = false) :
    j.getD k d = d := by
  unfold J.hasKey at h
  unfold J.getD
  cases hk : j.get? k with
  | none => rfl
  | some v => rw [hk] at h; simp at h

/-- C4 counterexample: on a payload with no recognizable container at all,
`_extract_table` asked for `"Races"` returns the default empty list instead of
raising — the claim's "never returns a default empty table" is false. -/
theorem extract_table_races_counterexample :
    firstContainer ((J.obj []).getD "MRData" (J.obj [])) "Races" = none ∧
    extract_table (J.obj []) "Races" = Except.ok (J.arr []) := by
  constructor <;> rfl

/-- C4 (amended): `_extract_table` probes RaceTable, DriverTable,
ConstructorTable, CircuitTable in that order and returns the first container
holding the key; when no container matches it raises a `KeyError` naming the
key — except for `table_key = "Races"`, where it instead returns an empty
list. -/
theorem extract_table_characterization (payload : J) (key : String) :
    extract_table payload key =
      match firstContainer (payload.getD "MRData" (J.obj [])) key with
      | some tbl => Except.ok (tbl.getD key (J.arr []))
      | none =>
        if key = "Races" then Except.ok (J.arr [])
        else Except.error (BuildError.keyError ("Could not find table_key=" ++ key ++ " in payload")) := by
  unfold extract_table firstContainer
  dsimp only
  rw [extractLoop_eq_firstContainer]
  cases h : ((containerPriority.map (fun n => (payload.getD "MRData" (J.obj [])).getD n (J.obj []))).find?
      (fun t => t.hasKey key)) with
  | some tbl => simp
  | none =>
    simp only [Option.map_none']
    by_cases hk : key = "Races"
    · subst hk
      simp only [if_pos rfl]
      have hmem : ((payload.getD "MRData" (J.obj [])).getD "RaceTable" (J.obj [])) ∈
          (containerPriority.map (fun n => (payload.getD "MRData" (J.obj [])).getD n (J.obj []))) := by
        simp [containerPriority]
      have hfalse := List.find?_eq_none.mp h _ hmem
      simp only [Bool.not_eq_true] at hfalse
      rw [getD_of_hasKey_false _ hfalse]
    · simp [hk]

/-- The whitespace class of the model: the six ASCII characters Python's
`str.strip` and the regex class `\s` agree on.  (Python also accepts further
Unicode whitespace; the model — like the data — stays in ASCII.) -/
def isWS (c : Char) : Bool :=
  c = ' ' || c = '\t' || c = '\n' || c = '\r' || c = '\x0b' || c = '\x0c'

/-- Python `str.strip()` on a character list. -/
def pyStripL (l : List Char) : List Char :=
  ((l.dropWhile isWS).reverse.dropWhile isWS).reverse

/-- The regex `^\+\d+\s+Lap(s)?$` of `compute_is_dnf`
(`build_modeling_table.py` line 24), compiled to a direct matcher: a `+`, one
or more digits, one or more whitespace characters, then `Lap` or `Laps`.
`takeWhile` is equivalent to the greedy regex here because the character
classes `\d`, `\s` and `L` are pairwise disjoint. -/
def lappedMatch : List Char → Bool
  | [] => false
  | c :: rest =>
    let ds := rest.takeWhile Char.isDigit
    let r1 := rest.dropWhile Char.isDigit
    let ws := r1.takeWhile isWS
    let r2 := r1.dropWhile isWS
    decide (c = '+') && (!ds.isEmpty && (!ws.isEmpty &&
      (r2 = ['L', 'a', 'p'] || r2 = ['L', 'a', 'p', 's'])))

/-- Embeds `compute_is_dnf` (`build_modeling_table.py` lines 13-25) for one
status cell: `status.fillna("").astype(str).str.strip()`, then NOT a DNF
(0) iff the stripped string equals `"Finished"` or matches the lapped-finish
regex; everything else is a DNF (1). -/
def compute_is_dnf (status : Option String) : Nat :=
  let l := pyStripL (status.getD "").data
  if l = "Finished".data || lappedMatch l then 0 else 1

/-- The lapped-finish pattern exactly as the spec words it: `+<N> Lap` /
`+<N> Laps` with a single space, N one or more digits.  Stated from the
spec's words, to compare against the source regex. -/
def specLappedExact (l : List Char) : Bool :=
  match l with
  | [] => false
  | c :: rest =>
    let ds := rest.takeWhile Char.isDigit
    let r1 := rest.dropWhile Char.isDigit
    decide (c = '+') && (!ds.isEmpty &&
      (r1 = ' ' :: ['L', 'a', 'p'] || r1 = ' ' :: ['L', 'a', 'p', 's']))

/-- What the source regex accepts, as a declarative decomposition: a `+`,
a nonempty digit block, a nonempty whitespace block, then `Lap` or `Laps`. -/
def LappedShape (l : List Char) : Prop :=
  ∃ ds ws tail, l = '+' :: (ds ++ ws ++ tail) ∧
    ds ≠ [] ∧ (∀ c ∈ ds, Char.isDigit c = true) ∧
    ws ≠ [] ∧ (∀ c ∈ ws, isWS c = true) ∧
    (tail = ['L', 'a', 'p'] ∨ tail = ['L', 'a', 'p', 's'])

theorem isEmpty_false_iff {α : Type} {l : List α} : l.isEmpty = false ↔ l ≠ [] := by
  cases l <;> simp

theorem isWS_not_digit {c : Char} (h : isWS c = true) : Char.isDigit c = false := by
  unfold isWS at h
  simp only [Bool.or_eq_true, decide_eq_true_eq] at h
  rcases h with ((((h | h) | h) | h) | h) | h <;> subst h <;> rfl

theorem takeWhile_append_all {p : α → Bool} {xs ys : List α}
    (h1 : ∀ c ∈ xs, p c = true) (h2 : ∀ c, ys.head? = some c → p c = false) :
    (xs ++ ys).takeWhile p = xs ∧ (xs ++ ys).dropWhile p = ys := by
  induction xs with
  | nil =>
    simp only [List.nil_append]
    cases ys with
    | nil => simp [List.takeWhile, List.dropWhile]
    | cons y ys =>
      have hy := h2 y rfl
      constructor
      · simp [List.takeWhile_cons, hy]
      · simp [List.dropWhile_cons, hy]
  | cons x xs ih =>
    have hx : p x = true := h1 x (List.mem_cons_self x xs)
    have ih2 := ih (fun c hc => h1 c (List.mem_cons_of_mem x hc))
    simp [List.takeWhile_cons, List.dropWhile_cons, hx, ih2.1, ih2.2]

theorem lappedMatch_iff_shape (l : List Char) : lappedMatch l = true ↔ LappedShape l := by
  constructor
  · intro h
    match l with
    | [] => simp [lappedMatch] at h
    | c :: rest =>
      simp only [lappedMatch, Bool.and_eq_true, Bool.or_eq_true, Bool.not_eq_true',
        isEmpty_false_iff, decide_eq_true_eq] at h
      obtain ⟨hc, hds, hws, htail⟩ := h
      subst hc
      refine ⟨rest.takeWhile Char.isDigit,
        (rest.dropWhile Char.isDigit).takeWhile isWS,
        (rest.dropWhile Char.isDigit).dropWhile isWS, ?_, hds, ?_, hws, ?_, ?_⟩
      · rw [List.append_assoc, List.takeWhile_append_dropWhile, List.takeWhile_append_dropWhile]
      · intro d hd; exact List.mem_takeWhile_imp hd
      · intro d hd; exact List.mem_takeWhile_imp hd
      · exact htail
  · rintro ⟨ds, ws, tail, hl, hds, hdsall, hws, hwsall, htail⟩
    subst hl
    have hheadws : ∀ c, (ws ++ tail).head? = some c → Char.isDigit c = false := by
      intro c hc
      cases ws with
      | nil => exact absurd rfl hws
      | cons w ws2 =>
        have hw := hwsall w (List.mem_cons_self w ws2)
        have hwc : w = c := by simpa using hc
        rw [← hwc]
        exact isWS_not_digit hw
    have hheadtail : ∀ c, tail.head? = some c → isWS c = false := by
      intro c hc
      rcases htail with h | h <;> subst h <;>
        simp only [List.head?_cons, Option.some.injEq] at hc <;> rw [← hc] <;> rfl
    have h1 := takeWhile_append_all (p := Char.isDigit) hdsall hheadws
    rw [← List.append_assoc] at h1
    have h2 := takeWhile_append_all (p := isWS) hwsall hheadtail
    simp only [lappedMatch, Bool.and_eq_true, Bool.or_eq_true, Bool.not_eq_true',
      isEmpty_false_iff, decide_eq_true_eq]
    rw [h1.1, h1.2, h2.1, h2.2]
    exact ⟨trivial, hds, hws, htail⟩

/-- C5 counterexample: `"+1  Lap"` (two spaces) is accepted by the source
regex (`\s+`), so the classifier says NOT a DNF, while the claim's pattern
`+<N> Lap` (single space) rejects it, and it is not `"Finished"` — so under
the claim it would have to be a DNF. -/
theorem compute_is_dnf_counterexample :
    compute_is_dnf (some "+1  Lap") = 0 ∧
    specLappedExact (pyStripL "+1  Lap".data) = false ∧
    pyStripL "+1  Lap".data ≠ "Finished".data := by
  refine ⟨by decide, by decide, by decide⟩

/-- C5 (amended): after normalizing (null to empty, strip surrounding
whitespace) a status is NOT a DNF exactly when it equals `"Finished"` or
decomposes as `+`, one or more digits, one or more whitespace characters,
then `Lap` or `Laps`; in particular `"Finished"`, `"+1 Lap"`, `"+2 Laps"`
are kept and `"Accident"`, `""` and null are DNFs. -/
theorem compute_is_dnf_characterization :
    (∀ status : Option String,
      compute_is_dnf status = 0 ↔
        (pyStripL (status.getD "").data = "Finished".data ∨
          LappedShape (pyStripL (status.getD "").data))) ∧
    compute_is_dnf (some "Finished") = 0 ∧
    compute_is_dnf (some "+1 Lap") = 0 ∧
    compute_is_dnf (some "+2 Laps") = 0 ∧
    compute_is_dnf (some "Accident") = 1 ∧
    compute_is_dnf (some "") = 1 ∧
    compute_is_dnf none = 1 := by
  refine ⟨?_, by decide, by decide, by decide, by decide, by decide, by decide⟩
  intro status
  unfold compute_is_dnf
  dsimp only
  rw [← lappedMatch_iff_shape]
  constructor
  · intro h
    by_contra hcon
    push_neg at hcon
    rw [if_neg ?_] at h
    · exact absurd h one_ne_zero
    · simp only [Bool.or_eq_true, decide_eq_true_eq]
      rintro (h1 | h2)
      · exact hcon.1 h1
      · exact hcon.2 h2
  · intro h
    rw [if_pos ?_]
    simp only [Bool.or_eq_true, decide_eq_true_eq]
    rcases h with h | h
    · exact Or.inl h
    · exact Or.inr h

/-- Embeds `ErgastConfig` (`ergast_client.py` lines 10-16).  `timeout_sec`
and `backoff_sec` only shape real-time behaviour (socket timeout, blocking
sleep) and play no role in the pure model, so they are omitted. -/
structure ErgastConfig where
  base_url : String := "https://api.jolpi.ca/ergast/f1"
  max_retries : Nat := 3
  page_limit : Nat := 1000

/-- One parsed page of an `MRData` envelope, after the `int(...)` coercions
of `fetch_all`: the reported `total`, `limit` and `offset`, and the
`RaceTable.Races` item list. -/
structure Page (α : Type) where
  total : Nat
  limit : Nat
  offset : Nat
  races : List α

/-- The `while True` loop of `ErgastClient.fetch_all` (`ergast_client.py`
lines 67-90), with the server abstracted as a function from the request's
`(limit, offset)` parameters to a page and the unbounded loop given explicit
fuel (`none` = the Python loop would still be running).  Returns the
accumulated items and the number of requests issued.  If a page has items,
the offset advances to the server-reported `offset + limit` and the loop
stops once that reaches the server-reported `total`; an empty page stops the
loop immediately. -/
def fetchAllLoop {α : Type} (server : Nat → Nat → Page α) (reqLimit : Nat) :
    Nat → Nat → List α → Option (List α × Nat)
  | 0, _, _ => none
  | fuel + 1, offset, acc =>
    let p := server reqLimit offset
    if p.races.isEmpty then some (acc, 1)
    else
      let acc2 := acc ++ p.races
      let offset2 := p.offset + p.limit
      if p.total ≤ offset2 then some (acc2, 1)
      else
        match fetchAllLoop server reqLimit fuel offset2 acc2 with
        | none => none
        | some (res, k) => some (res, k + 1)

/-- Embeds `ErgastClient.fetch_all`: start at offset 0 with the configured
page limit as the requested `limit` parameter (the variable `limit` is never
reassigned in the source, so every request carries it). -/
def fetch_all {α : Type} (cfg : ErgastConfig) (server : Nat → Nat → Page α)
    (fuel : Nat) : Option (List α × Nat) :=
  fetchAllLoop server cfg.page_limit fuel 0 []

/-- A truthful server over a fixed collection: it may cap the requested page
size at `cap`, and reports `total`, `limit` and `offset` honestly, returning
the corresponding slice of the collection. -/
def cappedServer {α : Type} (items : List α) (cap : Nat) : Nat → Nat → Page α :=
  fun reqLimit offset =>
    let l := min cap reqLimit
    { total := items.length, limit := l, offset := offset,
      races := (items.drop offset).take l }

theorem fetchAllLoop_cappedServer {α : Type} (items : List α) (cap : Nat)
    (reqLimit : Nat) (hL : 1 ≤ min cap reqLimit) :
    ∀ fuel offset acc, (items.length - offset) / (min cap reqLimit) + 1 ≤ fuel →
      fetchAllLoop (cappedServer items cap) reqLimit fuel offset acc =
        some (acc ++ items.drop offset,
          if items.length ≤ offset then 1
          else ((items.length - offset) + (min cap reqLimit) - 1) / (min cap reqLimit)) := by
  intro fuel
  set L := min cap reqLimit with hLdef
  induction fuel with
  | zero =>
    intro offset acc hfuel
    exact absurd hfuel (Nat.not_succ_le_zero _)
  | succ fuel ih =>
    intro offset acc _hfuel
    by_cases hoff : items.length ≤ offset
    · have hdrop : items.drop offset = [] := List.drop_eq_nil_of_le hoff
      simp [fetchAllLoop, cappedServer, hdrop, hoff]
    · push_neg at hoff
      have hdroplen : (items.drop offset).length = items.length - offset := by
        simp [List.length_drop]
      have hne : ((items.drop offset).take L).isEmpty = false := by
        rw [isEmpty_false_iff]
        intro hnil
        have := congrArg List.length hnil
        simp only [List.length_take, hdroplen, List.length_nil] at this
        omega
      by_cases hlast : items.length ≤ offset + L
      · have htake : (items.drop offset).take L = items.drop offset := by
          apply List.take_of_length_le
          omega
        have hcount : (items.length - offset + L - 1) / L = 1 :=
          Nat.div_eq_of_lt_le (by omega) (by omega)
        simp only [fetchAllLoop, cappedServer, hne, Bool.false_eq_true, if_false, ← hLdef]
        rw [if_pos hlast, htake, if_neg (by omega : ¬ items.length ≤ offset), hcount]
      · push_neg at hlast
        have hstep : (items.length - (offset + L)) / L + 1 ≤ fuel := by
          have heq : items.length - offset = (items.length - (offset + L)) + L := by omega
          have hdiv : (items.length - offset) / L = (items.length - (offset + L)) / L + 1 := by
            rw [heq, Nat.add_div_right _ (by omega : 0 < L)]
          omega
        have hglue : (acc ++ (items.drop offset).take L) ++ items.drop (offset + L) =
            acc ++ items.drop offset := by
          rw [List.append_assoc]
          congr 1
          have hdd : items.drop (offset + L) = (items.drop offset).drop L := by
            rw [List.drop_drop]
          rw [hdd, List.take_append_drop]
        have hcnt : (items.length - (offset + L) + L - 1) / L + 1 =
            (items.length - offset + L - 1) / L := by
          have he : items.length - offset + L - 1 =
              (items.length - (offset + L) + L - 1) + L := by omega
          rw [he, Nat.add_div_right _ (by omega : 0 < L)]
        have hrec := ih (offset + L) (acc ++ (items.drop offset).take L) hstep
        rw [if_neg (by omega : ¬ items.length ≤ offset + L), hglue] at hrec
        simp only [fetchAllLoop, cappedServer, hne, Bool.false_eq_true, if_false, ← hLdef]
        rw [if_neg (by omega : ¬ items.length ≤ offset + L), hrec]
        dsimp only
        rw [hcnt, if_neg (by omega : ¬ items.length ≤ offset)]

/-- C1 (amended): against a truthful (possibly page-size-capping) server,
`fetch_all` returns exactly the full collection and issues exactly
`ceil(total / server_reported_limit)` requests when `total > 0`, and exactly
one request when `total = 0` (the first, empty, page is still fetched). -/
theorem fetch_all_truthful_pagination {α : Type} (items : List α) (cap : Nat)
    (cfg : ErgastConfig) (fuel : Nat) (hL : 1 ≤ min cap cfg.page_limit)
    (hfuel : items.length / (min cap cfg.page_limit) + 1 ≤ fuel) :
    fetch_all cfg (cappedServer items cap) fuel =
      some (items, max 1 ((items.length + (min cap cfg.page_limit) - 1) / (min cap cfg.page_limit))) := by
  unfold fetch_all
  rw [fetchAllLoop_cappedServer items cap cfg.page_limit hL fuel 0 [] (by simpa using hfuel)]
  simp only [List.drop_zero, List.nil_append, Nat.sub_zero, Option.some.injEq, Prod.mk.injEq]
  refine ⟨trivial, ?_⟩
  by_cases h0 : items.length = 0
  · rw [if_pos (by omega)]
    have hz : (items.length + min cap cfg.page_limit - 1) / min cap cfg.page_limit = 0 :=
      Nat.div_eq_of_lt (by omega)
    omega
  · rw [if_neg (by omega)]
    have h1 : 1 ≤ (items.length + min cap cfg.page_limit - 1) / min cap cfg.page_limit :=
      (Nat.le_div_iff_mul_le (by omega)).mpr (by omega)
    omega

/-- Witness for C1's amended theorem: five items with the requested page size
of 1000 capped to 2 by the server — three requests, all five items. -/
theorem fetch_all_truthful_pagination_witness :
    fetch_all { } (cappedServer [0, 1, 2, 3, 4] 2) 10 = some ([0, 1, 2, 3, 4], 3) := by
  have h := fetch_all_truthful_pagination [0, 1, 2, 3, 4] 2 { } 10 (by decide) (by decide)
  simpa using h

/-- C1 counterexample: with a truthfully-reported `total = 0` the loop still
issues its first request and then stops on the empty page, so the request
count is 1 while `ceil(total / server_reported_limit) = 0`. -/
theorem fetch_all_zero_total_counterexample :
    fetch_all { } (cappedServer ([] : List Nat) 2) 10 = some ([], 1) ∧
    (0 + 2 - 1) / 2 = 0 := by
  constructor
  · rfl
  · decide

/-- The error raised by `ErgastClient._get_json` after all retries fail
(`ergast_client.py` line 48, the spec's `FetchError`): a `RuntimeError`
whose message carries the request URL and parameters, chained
(`from last_err`) to the last underlying exception. -/
structure FetchError (ε : Type) where
  url : String
  params : List (String × String)
  lastErr : Option ε
deriving DecidableEq, Repr

/-- The `for attempt in range(1, max_retries + 1)` loop of
`ErgastClient._get_json` (`ergast_client.py` lines 38-48), with one network
attempt abstracted as `attemptRes : Nat → Except ε ρ` (indexed by the
1-based attempt number; the `time.sleep` between attempts is a pure delay
with no observable effect).  Returns the outcome together with the number of
attempts actually made. -/
def getJsonGo {ε ρ : Type} (attemptRes : Nat → Except ε ρ) (url : String)
    (params : List (String × String)) :
    Nat → Nat → Option ε → Except (FetchError ε) ρ × Nat
  | 0, _, lastErr => (Except.error ⟨url, params, lastErr⟩, 0)
  | remaining + 1, k, _ =>
    match attemptRes k with
    | Except.ok r => (Except.ok r, 1)
    | Except.error e =>
      let next := getJsonGo attemptRes url params remaining (k + 1) (some e)
      (next.1, next.2 + 1)

/-- Embeds `ErgastClient._get_json`: up to `maxRetries` attempts starting at
attempt number 1 with no prior error. -/
def get_json {ε ρ : Type} (maxRetries : Nat) (url : String)
    (params : List (String × String)) (attemptRes : Nat → Except ε ρ) :
    Except (FetchError ε) ρ × Nat :=
  getJsonGo attemptRes url params maxRetries 1 none

theorem getJsonGo_all_fail {ε ρ : Type} (attemptRes : Nat → Except ε ρ)
    (url : String) (params : List (String × String)) :
    ∀ remaining start lastErr,
      (∀ k, start ≤ k → k < start + remaining → ∃ e, attemptRes k = Except.error e) →
      ∃ final : Option ε,
        getJsonGo attemptRes url params remaining start lastErr =
          (Except.error ⟨url, params, final⟩, remaining) ∧
        (remaining = 0 → final = lastErr) ∧
        (1 ≤ remaining → ∃ e, attemptRes (start + remaining - 1) = Except.error e ∧ final = some e) := by
  intro remaining
  induction remaining with
  | zero =>
    intro start lastErr _h
    exact ⟨lastErr, rfl, fun _ => rfl, fun h1 => absurd h1 (by omega)⟩
  | succ remaining ih =>
    intro start lastErr hfail
    obtain ⟨e1, he1⟩ := hfail start (le_refl start) (by omega)
    have hrest := ih (start + 1) (some e1)
      (fun k hk1 hk2 => hfail k (by omega) (by omega))
    obtain ⟨final, heq, hzero, hlast⟩ := hrest
    refine ⟨final, ?_, fun h => absurd h (by omega), ?_⟩
    · simp [getJsonGo, he1, heq]
    · intro _
      by_cases hz : remaining = 0
      · subst hz
        exact ⟨e1, by simpa using he1, hzero rfl⟩
      · obtain ⟨e, he, hfin⟩ := hlast (by omega)
        refine ⟨e, ?_, hfin⟩
        have : start + 1 + remaining - 1 = start + (remaining + 1) - 1 := by omega
        rw [← this]
        exact he

/-- C3: with `max_retries = 3` and every attempt failing, `_get_json` makes
exactly 3 attempts and then raises an error that carries the request URL and
parameters and wraps the last underlying error — the failure is an
`Except.error`, never a silent success. -/
theorem get_json_retries_exactly {ε ρ : Type} (attemptRes : Nat → Except ε ρ)
    (url : String) (params : List (String × String))
    (hfail : ∀ k, ∃ e, attemptRes k = Except.error e) :
    ∃ e3, attemptRes 3 = Except.error e3 ∧
      get_json 3 url params attemptRes = (Except.error ⟨url, params, some e3⟩, 3) := by
  obtain ⟨final, heq, _hzero, hlast⟩ :=
    getJsonGo_all_fail attemptRes url params 3 1 none (fun k _ _ => hfail k)
  obtain ⟨e, he, hfin⟩ := hlast (by omega)
  refine ⟨e, by simpa using he, ?_⟩
  unfold get_json
  rw [heq, hfin]

/-- Witness for C3: a concrete always-failing attempt function. -/
theorem get_json_retries_exactly_witness :
    get_json 3 "https://api.jolpi.ca/ergast/f1/drivers.json" [("limit", "1000")]
        (fun _ => (Except.error "boom" : Except String Unit)) =
      (Except.error ⟨"https://api.jolpi.ca/ergast/f1/drivers.json", [("limit", "1000")], some "boom"⟩, 3) := by
  obtain ⟨e3, he3, heq⟩ := get_json_retries_exactly
    (fun _ => (Except.error "boom" : Except String Unit))
    "https://api.jolpi.ca/ergast/f1/drivers.json" [("limit", "1000")]
    (fun _ => ⟨"boom", rfl⟩)
  have : e3 = "boom" := by simpa using he3.symm
  rw [this] at heq
  exact heq

/-- Integer value of a digit string. -/
def digitsToInt (l : List Char) : Int :=
  l.foldl (fun a c => a * 10 + ((c.toNat : Int) - 48)) 0

/-- Python `int(s)` on a string: surrounding whitespace, an optional sign,
then one or more digits; anything else fails. -/
def pyIntOfString (s : String) : Option Int :=
  match pyStripL s.data with
  | '-' :: ds => if !ds.isEmpty && ds.all Char.isDigit then some (-(digitsToInt ds)) else none
  | '+' :: ds => if !ds.isEmpty && ds.all Char.isDigit then some (digitsToInt ds) else none
  | ds => if !ds.isEmpty && ds.all Char.isDigit then some (digitsToInt ds) else none

/-- `pd.to_numeric(..., errors="coerce")` followed by `astype("Int64")` on one
cell: numbers pass through, numeric strings parse, everything else (missing,
null, malformed) coerces to null.  The pipeline's numeric columns are
integral, so `Int` suffices. -/
def pyToNumericJ (o : Option J) : Option Int :=
  match o with
  | some (J.num n) => some n
  | some (J.str s) => pyIntOfString s
  | _ => none

/-- Python `int(x)` on a raw JSON value: unlike `to_numeric(errors="coerce")`
this raises (`ValueError`/`TypeError`) on anything non-numeric. -/
def pyIntStrict (o : Option J) : Except BuildError Int :=
  match o with
  | some (J.num n) => Except.ok n
  | some (J.str s) =>
    match pyIntOfString s with
    | some n => Except.ok n
    | none => Except.error (BuildError.valueError "invalid literal for int with base 10")
  | _ => Except.error (BuildError.valueError "int argument must be a string or a number")

/-- ISO `YYYY-MM-DD` validity — the date format of the Ergast payloads and
the shape `pd.to_datetime(..., errors="coerce")` accepts for them. -/
def isIsoDate (s : String) : Bool :=
  match s.data with
  | [y1, y2, y3, y4, '-', m1, m2, '-', d1, d2] =>
    y1.isDigit && y2.isDigit && y3.isDigit && y4.isDigit &&
    m1.isDigit && m2.isDigit && d1.isDigit && d2.isDigit &&
    (let m := 10 * (m1.toNat - 48) + (m2.toNat - 48)
     let d := 10 * (d1.toNat - 48) + (d2.toNat - 48)
     1 ≤ m && m ≤ 12 && 1 ≤ d && d ≤ 31)
  | _ => false

/-- `pd.to_datetime(..., errors="coerce").dt.date` on one cell: a valid date
string survives (kept as its string form in the model), anything else
coerces to null. -/
def parsePyDate (o : Option J) : Option String :=
  match o with
  | some (J.str s) => if isIsoDate s then some s else none
  | _ => none

/-- Python `str(x)` / f-string interpolation of a raw-dict value: `None`
renders as `"None"`.  Containers never reach this in the pipeline; they get
opaque placeholders. -/
def pyStr (o : Option J) : String :=
  match o with
  | none => "None"
  | some J.null => "None"
  | some (J.str s) => s
  | some (J.num n) => toString n
  | some (J.arr _) => "<list>"
  | some (J.obj _) => "<dict>"

/-- `astype(str)` on a `json_normalize`d cell: a missing nested path became
float NaN, which renders as `"nan"`; an explicit JSON null became `None`,
rendering as `"None"`. -/
def normStr (o : Option J) : String :=
  match o with
  | none => "nan"
  | some J.null => "None"
  | some (J.str s) => s
  | some (J.num n) => toString n
  | some (J.arr _) => "<list>"
  | some (J.obj _) => "<dict>"

/-- `astype(str)` on a nullable-integer (`Int64`) cell: missing renders as
pandas `"<NA>"`. -/
def int64Str (o : Option Int) : String :=
  match o with
  | some n => toString n
  | none => "<NA>"

/-- `df.duplicated(...).any()`: does the list contain a repeated element? -/
def hasDup {α : Type} [DecidableEq α] : List α → Bool
  | [] => false
  | x :: xs => xs.contains x || hasDup xs

/-- The fixed ingestion year range `range(2010, 2026)` iterated by
`build_fct_races` and `build_fct_results` (2010 … 2025). -/
def ingestYears : List Nat :=
  List.range' 2010 16

/-- One row of the `fct_races` table after renaming, type coercion and the
surrogate-key derivation (`build_clean_tables.py` lines 129-147). -/
structure RaceRow where
  race_id : String
  year : Option Int
  round : Option Int
  race_date : Option String
  race_name : Option String
  circuit_id : String
  circuit_name : Option String
  url : Option String
deriving DecidableEq, Repr

/-- Flatten one race object of a races payload into a `RaceRow`:
`json_normalize` plus the renames and coercions of `build_fct_races`. -/
def flattenRace (race : J) : RaceRow :=
  let y := pyToNumericJ (race.get? "season")
  let rnd := pyToNumericJ (race.get? "round")
  { race_id := int64Str y ++ "_" ++ int64Str rnd
    year := y
    round := rnd
    race_date := parsePyDate (race.get? "date")
    race_name := (race.get? "raceName").bind J.asStr?
    circuit_id := normStr ((race.getD "Circuit" (J.obj [])).get? "circuitId")
    circuit_name := ((race.getD "Circuit" (J.obj [])).get? "circuitName").bind J.asStr?
    url := (race.get? "url").bind J.asStr? }

/-- The year loop of `build_fct_races` (lines 121-125): extract and
concatenate the `Races` lists of every snapshot in the year range, flattening
each race. -/
def flattenRaces (snaps : Nat → J) : List Nat → Except BuildError (List RaceRow)
  | [] => Except.ok []
  | y :: rest =>
    match extract_table (snaps y) "Races" with
    | Except.error e => Except.error e
    | Except.ok races =>
      match flattenRaces snaps rest with
      | Except.error e => Except.error e
      | Except.ok more => Except.ok (races.asArr.map flattenRace ++ more)

/-- Embeds `build_fct_races` (`build_clean_tables.py` lines 120-156): flatten
all snapshots, then fail on a duplicate `race_id` and on any null
`race_date` surviving parsing (both raised as `ValueError` in the source, the
spec's `IntegrityError`). -/
def build_fct_races (snaps : Nat → J) : Except BuildError (List RaceRow) :=
  match flattenRaces snaps ingestYears with
  | Except.error e => Except.error e
  | Except.ok rows =>
    if hasDup (rows.map (fun r => r.race_id)) then
      Except.error (BuildError.integrityError "Duplicate race_id found in races")
    else if rows.any (fun r => r.race_date.isNone) then
      Except.error (BuildError.integrityError "Some races have missing race_date after parsing")
    else
      Except.ok rows

/-- One row of the `fct_results` table (`build_clean_tables.py` lines
173-186 plus the numeric coercions of lines 192-198). -/
structure ResultRow where
  race_id : String
  year : Int
  round : Int
  driver_id : String
  constructor_id : String
  grid : Option Int
  position : Option Int
  position_order : Option Int
  points : Option Int
  status : Option String
  laps : Option Int
  time : Option String
deriving DecidableEq, Repr

/-- Flatten one nested per-driver result record of a race (the inner loop of
`build_fct_results`): `int(season)` / `int(round)` may raise, the rest
coerces. -/
def flattenOneResult (race r : J) : Except BuildError ResultRow :=
  match pyIntStrict (race.get? "season") with
  | Except.error e => Except.error e
  | Except.ok yr =>
    match pyIntStrict (race.get? "round") with
    | Except.error e => Except.error e
    | Except.ok rnd =>
      Except.ok
        { race_id := pyStr (race.get? "season") ++ "_" ++ pyStr (race.get? "round")
          year := yr
          round := rnd
          driver_id := pyStr ((r.getD "Driver" (J.obj [])).get? "driverId")
          constructor_id := pyStr ((r.getD "Constructor" (J.obj [])).get? "constructorId")
          grid := pyToNumericJ (r.get? "grid")
          position := pyToNumericJ (r.get? "position")
          position_order := pyToNumericJ (r.get? "positionOrder")
          points := pyToNumericJ (r.get? "points")
          status := (r.get? "status").bind J.asStr?
          laps := pyToNumericJ (r.get? "laps")
          time :=
            match r.get? "Time" with
            | some (J.obj fs) => ((J.obj fs).get? "time").bind J.asStr?
            | _ => none }

/-- All result rows of one race container (`results = race.get("Results", [])`). -/
def flattenResultList (race : J) : List J → Except BuildError (List ResultRow)
  | [] => Except.ok []
  | r :: rest =>
    match flattenOneResult race r with
    | Except.error e => Except.error e
    | Except.ok row =>
      match flattenResultList race rest with
      | Except.error e => Except.error e
      | Except.ok more => Except.ok (row :: more)

/-- All result rows of a list of race containers. -/
def flattenRaceList : List J → Except BuildError (List ResultRow)
  | [] => Except.ok []
  | race :: rest =>
    match flattenResultList race (race.getD "Results" (J.arr [])).asArr with
    | Except.error e => Except.error e
    | Except.ok rows =>
      match flattenRaceList rest with
      | Except.error e => Except.error e
      | Except.ok more => Except.ok (rows ++ more)

/-- The year loop of `build_fct_results` (lines 162-187). -/
def flattenResults (snaps : Nat → J) : List Nat → Except BuildError (List ResultRow)
  | [] => Except.ok []
  | y :: rest =>
    match extract_table (snaps y) "Races" with
    | Except.error e => Except.error e
    | Except.ok races =>
      match flattenRaceList races.asArr with
      | Except.error e => Except.error e
      | Except.ok rows =>
        match flattenResults snaps rest with
        | Except.error e => Except.error e
        | Except.ok more => Except.ok (rows ++ more)

/-- Embeds `build_fct_results` (`build_clean_tables.py` lines 159-220):
flatten all snapshots, then fail on any duplicate `(race_id, driver_id)`
pair (raised as `ValueError` in the source, the spec's `IntegrityError`). -/
def build_fct_results (snaps : Nat → J) : Except BuildError (List ResultRow) :=
  match flattenResults snaps ingestYears with
  | Except.error e => Except.error e
  | Except.ok rows =>
    if hasDup (rows.map (fun r => (r.race_id, r.driver_id))) then
      Except.error (BuildError.integrityError "Duplicate (race_id, driver_id) in results")
    else
      Except.ok rows

/-- A race fixture object with the fields `build_fct_races` consumes. -/
def mkRace (season rnd date name circuit : String) : J :=
  J.obj [("season", J.str season), ("round", J.str rnd), ("raceName", J.str name),
    ("date", J.str date), ("url", J.str "http://example.com"),
    ("Circuit", J.obj [("circuitId", J.str circuit), ("circuitName", J.str circuit)])]

/-- An `MRData` envelope holding a `RaceTable.Races` list. -/
def racesPayload (races : List J) : J :=
  J.obj [("MRData", J.obj [("RaceTable", J.obj [("Races", J.arr races)])])]

/-- The C10 fixture store: races for 2020-2021, rounds 1-2 each; every other
year's snapshot is an empty race list. -/
def c10Snaps : Nat → J := fun y =>
  if y = 2020 then
    racesPayload [mkRace "2020" "1" "2020-07-05" "R1" "c1",
      mkRace "2020" "2" "2020-07-12" "R2" "c2"]
  else if y = 2021 then
    racesPayload [mkRace "2021" "1" "2021-03-28" "R3" "c3",
      mkRace "2021" "2" "2021-04-18" "R4" "c4"]
  else racesPayload []

/-- The four rows `build_fct_races` produces from the C10 fixture. -/
def c10Expected : List RaceRow :=
  [{ race_id := "2020_1", year := some 2020, round := some 1,
     race_date := some "2020-07-05", race_name := some "R1", circuit_id := "c1",
     circuit_name := some "c1", url := some "http://example.com" },
   { race_id := "2020_2", year := some 2020, round := some 2,
     race_date := some "2020-07-12", race_name := some "R2", circuit_id := "c2",
     circuit_name := some "c2", url := some "http://example.com" },
   { race_id := "2021_1", year := some 2021, round := some 1,
     race_date := some "2021-03-28", race_name := some "R3", circuit_id := "c3",
     circuit_name := some "c3", url := some "http://example.com" },
   { race_id := "2021_2", year := some 2021, round := some 2,
     race_date := some "2021-04-18", race_name := some "R4", circuit_id := "c4",
     circuit_name := some "c4", url := some "http://example.com" }]

/-- C10: the 2020-2021 fixture builds exactly the four expected rows with
race_ids 2020_1, 2020_2, 2021_1, 2021_2 and no null race_date; and in
general any successful `build_fct_races` output has no null race_date — a
surviving null date fails the build instead. -/
theorem build_fct_races_roundtrip :
    build_fct_races c10Snaps = Except.ok c10Expected ∧
    c10Expected.map (fun r => r.race_id) = ["2020_1", "2020_2", "2021_1", "2021_2"] ∧
    (∀ snaps t, build_fct_races snaps = Except.ok t →
      t.all (fun r => r.race_date.isSome) = true) := by
  refine ⟨by rfl, by rfl, ?_⟩
  intro snaps t hok
  unfold build_fct_races at hok
  cases hflat : flattenRaces snaps ingestYears with
  | error e => rw [hflat] at hok; exact absurd hok (by simp)
  | ok rows =>
    rw [hflat] at hok
    dsimp only at hok
    by_cases hdup : hasDup (rows.map (fun r => r.race_id)) = true
    · rw [if_pos hdup] at hok; exact absurd hok (by simp)
    · rw [if_neg hdup] at hok
      by_cases hnull : rows.any (fun r => r.race_date.isNone) = true
      · rw [if_pos hnull] at hok; exact absurd hok (by simp)
      · rw [if_neg hnull] at hok
        have ht : rows = t := by
          have := hok
          simp only [Except.ok.injEq] at this
          exact this
        subst ht
        rw [List.all_eq_true]
        intro r hr
        have hfalse : rows.any (fun r => r.race_date.isNone) = false := eq_false_of_ne_true hnull
        have hnot := List.any_eq_false.mp hfalse r hr
        cases hval : r.race_date with
        | some d => rfl
        | none => rw [hval] at hnot; exact absurd rfl hnot

/-- Witness for C10's universally quantified conjunct, instantiated at the
fixture itself. -/
theorem build_fct_races_roundtrip_witness :
    c10Expected.all (fun r => r.race_date.isSome) = true :=
  build_fct_races_roundtrip.2.2 c10Snaps c10Expected build_fct_races_roundtrip.1

/-- A per-driver result fixture record with the fields `build_fct_results`
consumes. -/
def mkResult (driver constructor grid pos pts status laps : String) : J :=
  J.obj [("Driver", J.obj [("driverId", J.str driver)]),
    ("Constructor", J.obj [("constructorId", J.str constructor)]),
    ("grid", J.str grid), ("position", J.str pos), ("positionOrder", J.str pos),
    ("points", J.str pts), ("status", J.str status), ("laps", J.str laps)]

/-- A race container of a results payload. -/
def mkResultsRace (season rnd : String) (results : List J) : J :=
  J.obj [("season", J.str season), ("round", J.str rnd), ("Results", J.arr results)]

/-- A results fixture in which the same driver appears twice in one race:
two flattened rows share the `(race_id, driver_id)` pair. -/
def dupSnaps : Nat → J := fun y =>
  if y = 2015 then
    racesPayload [mkResultsRace "2015" "1"
      [mkResult "max" "rb" "1" "1" "25" "Finished" "57",
       mkResult "max" "rb" "2" "2" "18" "Finished" "57"]]
  else racesPayload []

/-- The two duplicate-keyed rows the fixture flattens to. -/
def dupRows : List ResultRow :=
  [{ race_id := "2015_1", year := 2015, round := 1, driver_id := "max",
     constructor_id := "rb", grid := some 1, position := some 1,
     position_order := some 1, points := some 25, status := some "Finished",
     laps := some 57, time := none },
   { race_id := "2015_1", year := 2015, round := 1, driver_id := "max",
     constructor_id := "rb", grid := some 2, position := some 2,
     position_order := some 2, points := some 18, status := some "Finished",
     laps := some 57, time := none }]

/-- C6: an input whose flattened result rows contain two rows sharing the
same `(race_id, driver_id)` makes `build_fct_results` fail with the
duplicate-key `IntegrityError`, and every successfully built results table
has pairwise-distinct `(race_id, driver_id)` pairs. -/
theorem build_fct_results_unique_pairs :
    (∀ snaps rows, flattenResults snaps ingestYears = Except.ok rows →
      hasDup (rows.map (fun r => (r.race_id, r.driver_id))) = true →
      build_fct_results snaps =
        Except.error (BuildError.integrityError "Duplicate (race_id, driver_id) in results")) ∧
    (∀ snaps t, build_fct_results snaps = Except.ok t →
      hasDup (t.map (fun r => (r.race_id, r.driver_id))) = false) := by
  constructor
  · intro snaps rows hflat hdup
    unfold build_fct_results
    rw [hflat]
    dsimp only
    rw [if_pos hdup]
  · intro snaps t hok
    unfold build_fct_results at hok
    cases hflat : flattenResults snaps ingestYears with
    | error e => rw [hflat] at hok; exact absurd hok (by simp)
    | ok rows =>
      rw [hflat] at hok
      dsimp only at hok
      by_cases hdup : hasDup (rows.map (fun r => (r.race_id, r.driver_id))) = true
      · rw [if_pos hdup] at hok; exact absurd hok (by simp)
      · rw [if_neg hdup] at hok
        have ht : rows = t := by
          simp only [Except.ok.injEq] at hok
          exact hok
        subst ht
        exact eq_false_of_ne_true hdup

/-- Witness for C6: the duplicate-driver fixture is rejected with the
duplicate-key error. -/
theorem build_fct_results_unique_pairs_witness :
    build_fct_results dupSnaps =
      Except.error (BuildError.integrityError "Duplicate (race_id, driver_id) in results") :=
  build_fct_results_unique_pairs.1 dupSnaps dupRows (by rfl) (by rfl)

/-- An untyped pandas cell value: null (None/NaN/NA), a string, or an
integer (the pipeline's numeric columns are integral). -/
inductive Val where
  | vnull : Val
  | vstr (s : String) : Val
  | vint (n : Int) : Val
deriving DecidableEq, Repr

/-- Cell lookup in a row (an association list of column name to value);
absent entries read as null. -/
def rowGet (r : List (String × Val)) (c : String) : Val :=
  ((r.find? (fun p => p.1 == c)).map (fun p => p.2)).getD Val.vnull

/-- Cell update in a row (append the entry if the column is new). -/
def rowSet (r : List (String × Val)) (c : String) (v : Val) : List (String × Val) :=
  if r.any (fun p => p.1 == c) then
    r.map (fun p => if p.1 == c then (c, v) else p)
  else r ++ [(c, v)]

/-- A dataframe: a column index plus rows of named cells.  Columns are
looked up by name, so a read of an absent column fails with `KeyError`
exactly as in pandas. -/
structure DF where
  cols : List String
  rows : List (List (String × Val))
deriving DecidableEq, Repr

/-- `df[c]`: the column as a list of cells, `KeyError` if absent. -/
def dfGetCol (df : DF) (c : String) : Except BuildError (List Val) :=
  if df.cols.contains c then Except.ok (df.rows.map (fun r => rowGet r c))
  else Except.error (BuildError.keyError c)

/-- `df[[c1, ..., cn]]`: projection onto a column list, `KeyError` if any is
absent. -/
def dfSelect (df : DF) (cs : List String) : Except BuildError DF :=
  if cs.all (fun c => df.cols.contains c) then
    Except.ok { cols := cs, rows := df.rows.map (fun r => cs.map (fun c => (c, rowGet r c))) }
  else Except.error (BuildError.keyError "columns are not in the index")

/-- `df[c] = values`. -/
def dfSetCol (df : DF) (c : String) (vs : List Val) : DF :=
  { cols := if df.cols.contains c then df.cols else df.cols ++ [c],
    rows := List.zipWith (fun r v => rowSet r c v) df.rows vs }

/-- `left.merge(right, on=key, how="left", validate="many_to_one")`: fails
(pandas `MergeError`, the spec's `IntegrityError`) when the right key is not
unique; otherwise each left row is extended with its matching right row (or
nulls).  The pipeline's inputs share no non-key columns, so overlap
suffixing is not modelled. -/
def dfMerge (left right : DF) (key : String) : Except BuildError DF :=
  if left.cols.contains key && right.cols.contains key then
    if hasDup (right.rows.map (fun r => rowGet r key)) then
      Except.error (BuildError.integrityError
        "Merge keys are not unique in right dataset; not a many-to-one merge")
    else
      Except.ok
        { cols := left.cols ++ right.cols.filter (fun c => c != key),
          rows := left.rows.map (fun lr =>
            match right.rows.find? (fun rr => rowGet rr key == rowGet lr key) with
            | some rr => lr ++ rr.filter (fun p => p.1 != key)
            | none => lr ++ (right.cols.filter (fun c => c != key)).map (fun c => (c, Val.vnull))) }
  else Except.error (BuildError.keyError key)

/-- Sort-order rank of a cell: numbers, then strings, then nulls (pandas
sorts NaN last by default). -/
def valRank (v : Val) : Nat :=
  match v with
  | Val.vint _ => 0
  | Val.vstr _ => 1
  | Val.vnull => 2

/-- A total boolean preorder on cells used by `sort_values`. -/
def valLeB (a b : Val) : Bool :=
  match a, b with
  | Val.vint m, Val.vint n => decide (m ≤ n)
  | Val.vstr s, Val.vstr t => s == t || decide (s < t)
  | _, _ => decide (valRank a ≤ valRank b)

/-- Lexicographic row comparison over a key-column list. -/
def rowLeB (keys : List String) (r1 r2 : List (String × Val)) : Bool :=
  match keys with
  | [] => true
  | k :: ks =>
    let a := rowGet r1 k
    let b := rowGet r2 k
    if a = b then rowLeB ks r1 r2 else valLeB a b

/-- Insertion into a sorted list. -/
def insertBy {α : Type} (le : α → α → Bool) (x : α) : List α → List α
  | [] => [x]
  | y :: ys => if le x y then x :: y :: ys else y :: insertBy le x ys

/-- Insertion sort; row order is irrelevant to every verified property. -/
def sortBy {α : Type} (le : α → α → Bool) : List α → List α
  | [] => []
  | x :: xs => insertBy le x (sortBy le xs)

/-- `df.sort_values(keys)`. -/
def dfSortValues (df : DF) (keys : List String) : DF :=
  { cols := df.cols, rows := sortBy (rowLeB keys) df.rows }

/-- The column set of the `fct_races` artifact (`build_clean_tables.py`
line 156). -/
def racesOutputColumns : List String :=
  ["race_id", "year", "round", "race_date", "race_name", "circuit_id", "circuit_name", "url"]

/-- The column set of the `fct_results` artifact (`build_clean_tables.py`
lines 205-220).  The finish position is named `position` here. -/
def resultsOutputColumns : List String :=
  ["race_id", "year", "round", "driver_id", "constructor_id", "grid", "position",
   "position_order", "points", "status", "laps", "time"]

/-- The column set of the `driver_race_modeling` artifact
(`build_modeling_table.py` lines 58-77); `grid` is deliberately not in it. -/
def modelingColumns : List String :=
  ["race_id", "year", "round", "race_date", "race_name", "circuit_id", "driver_id",
   "constructor_id", "finish_position", "points", "status", "is_dnf", "is_podium", "split"]

/-- `.astype("Int64")` on one cell.  On the pipeline's already-Int64 column
this is the identity; numeric strings cast; the model coerces other strings
to null (pandas would raise there — unreachable on pipeline data). -/
def int64CastVal (v : Val) : Val :=
  match v with
  | Val.vint n => Val.vint n
  | Val.vstr s =>
    match pyIntOfString s with
    | some n => Val.vint n
    | none => Val.vnull
  | Val.vnull => Val.vnull

/-- Line 49 of `build_modeling_table.py`:
`(finish_position.fillna(999) <= 3).astype(int)` on one cell. -/
def isPodiumOf (v : Val) : Val :=
  Val.vint (if (match v with | Val.vint n => n | _ => (999 : Int)) ≤ 3 then 1 else 0)

/-- Line 51 of `build_modeling_table.py`: `compute_is_dnf` on one status
cell (a non-string cell reads as null, which `fillna("")` maps to the empty
string). -/
def isDnfOf (v : Val) : Val :=
  Val.vint (Int.ofNat (compute_is_dnf (match v with | Val.vstr s => some s | _ => none)))

/-- Lines 54-55 of `build_modeling_table.py`: `split = "train"`, then
`"test"` where `year == 2025`. -/
def splitOfYear (v : Val) : Val :=
  if v = Val.vint 2025 then Val.vstr "test" else Val.vstr "train"

/-- Embeds `main` of `build_modeling_table.py` (lines 28-93) over the
dataframe model: select the race columns, left-merge results onto them with
many-to-one validation, fail on any null `race_date` after the join, read
and cast `finish_position`, derive `is_podium`, `is_dnf` and `split`,
project onto the modeling column set, sort, and fail on duplicate
`(race_id, driver_id)`.  `out.to_parquet` runs only after every step above
succeeded, so an `Except.error` result means nothing is written. -/
def build_modeling_main (races results : DF) : Except BuildError DF :=
  match dfSelect races ["race_id", "race_date", "circuit_id", "race_name"] with
  | Except.error e => Except.error e
  | Except.ok racesSel =>
    match dfMerge results racesSel "race_id" with
    | Except.error e => Except.error e
    | Except.ok df0 =>
      match dfGetCol df0 "race_date" with
      | Except.error e => Except.error e
      | Except.ok rd =>
        if rd.any (fun v => v = Val.vnull) then
          Except.error (BuildError.valueError "Missing race_date after join")
        else
          match dfGetCol df0 "finish_position" with
          | Except.error e => Except.error e
          | Except.ok fp0 =>
            let fp := fp0.map int64CastVal
            let df1 := dfSetCol df0 "finish_position" fp
            let df2 := dfSetCol df1 "is_podium" (fp.map isPodiumOf)
            match dfGetCol df2 "status" with
            | Except.error e => Except.error e
            | Except.ok st =>
              let df3 := dfSetCol df2 "is_dnf" (st.map isDnfOf)
              match dfGetCol df3 "year" with
              | Except.error e => Except.error e
              | Except.ok yr =>
                let df4 := dfSetCol df3 "split" (yr.map splitOfYear)
                match dfSelect df4 modelingColumns with
                | Except.error e => Except.error e
                | Except.ok out0 =>
                  let out := dfSortValues out0 ["race_date", "race_id", "driver_id"]
                  if hasDup (out.rows.map (fun r => (rowGet r "race_id", rowGet r "driver_id"))) then
                    Except.error (BuildError.integrityError "Duplicate (race_id, driver_id) in modeling table")
                  else
                    Except.ok out

/-- A null-aware integer cell. -/
def optIntVal (o : Option Int) : Val :=
  match o with
  | some n => Val.vint n
  | none => Val.vnull

/-- A null-aware string cell. -/
def optStrVal (o : Option String) : Val :=
  match o with
  | some s => Val.vstr s
  | none => Val.vnull

/-- The parquet round-trip of a built races table: the dataframe
`build_modeling_table.main` reads back has exactly the `fct_races` columns. -/
def dfOfRaces (rows : List RaceRow) : DF :=
  { cols := racesOutputColumns,
    rows := rows.map (fun r =>
      [("race_id", Val.vstr r.race_id), ("year", optIntVal r.year),
       ("round", optIntVal r.round), ("race_date", optStrVal r.race_date),
       ("race_name", optStrVal r.race_name), ("circuit_id", Val.vstr r.circuit_id),
       ("circuit_name", optStrVal r.circuit_name), ("url", optStrVal r.url)]) }

/-- The parquet round-trip of a built results table: the dataframe
`build_modeling_table.main` reads back has exactly the `fct_results`
columns — the finish position is named `position`. -/
def dfOfResults (rows : List ResultRow) : DF :=
  { cols := resultsOutputColumns,
    rows := rows.map (fun r =>
      [("race_id", Val.vstr r.race_id), ("year", Val.vint r.year),
       ("round", Val.vint r.round), ("driver_id", Val.vstr r.driver_id),
       ("constructor_id", Val.vstr r.constructor_id), ("grid", optIntVal r.grid),
       ("position", optIntVal r.position), ("position_order", optIntVal r.position_order),
       ("points", optIntVal r.points), ("status", optStrVal r.status),
       ("laps", optIntVal r.laps), ("time", optStrVal r.time)]) }

theorem dfSelect_ok_cols {df : DF} {cs : List String} {out : DF}
    (h : dfSelect df cs = Except.ok out) : out.cols = cs := by
  unfold dfSelect at h
  by_cases hc : cs.all (fun c => df.cols.contains c) = true
  · rw [if_pos hc] at h
    simp only [Except.ok.injEq] at h
    rw [← h]
  · rw [if_neg hc] at h
    exact absurd h (by simp)

theorem dfMerge_ok_cols {l r : DF} {key : String} {out : DF}
    (h : dfMerge l r key = Except.ok out) :
    out.cols = l.cols ++ r.cols.filter (fun c => c != key) := by
  unfold dfMerge at h
  by_cases h1 : (l.cols.contains key && r.cols.contains key) = true
  · rw [if_pos h1] at h
    by_cases h2 : hasDup (r.rows.map (fun rr => rowGet rr key)) = true
    · rw [if_pos h2] at h
      exact absurd h (by simp)
    · rw [if_neg h2] at h
      simp only [Except.ok.injEq] at h
      rw [← h]
  · rw [if_neg h1] at h
    exact absurd h (by simp)

/-- C2: for every races table `build_fct_races` produced and every results
table `build_fct_results` produced, the modeling-table build fails with an
error (so `out.to_parquet` is never reached and no output is written):
`build_fct_results` names the finish-position column `position`, while the
modeling builder reads `finish_position`, which the joined table lacks. -/
theorem modeling_build_always_errors :
    (∀ (raceRows : List RaceRow) (resultRows : List ResultRow),
      ∃ e, build_modeling_main (dfOfRaces raceRows) (dfOfResults resultRows) =
        Except.error e) ∧
    "position" ∈ resultsOutputColumns ∧
    "finish_position" ∉ resultsOutputColumns ++ ["race_date", "circuit_id", "race_name"] := by
  refine ⟨?_, by decide, by decide⟩
  intro raceRows resultRows
  unfold build_modeling_main
  cases hsel : dfSelect (dfOfRaces raceRows) ["race_id", "race_date", "circuit_id", "race_name"] with
  | error e => exact ⟨e, rfl⟩
  | ok racesSel =>
    dsimp only
    cases hmerge : dfMerge (dfOfResults resultRows) racesSel "race_id" with
    | error e => exact ⟨e, rfl⟩
    | ok df0 =>
      dsimp only
      cases hrd : dfGetCol df0 "race_date" with
      | error e => exact ⟨e, rfl⟩
      | ok rd =>
        dsimp only
        by_cases hnull : rd.any (fun v => v = Val.vnull) = true
        · exact ⟨BuildError.valueError "Missing race_date after join", by rw [if_pos hnull]⟩
        · have hcols : df0.cols = resultsOutputColumns ++ ["race_date", "circuit_id", "race_name"] := by
            have h1 := dfMerge_ok_cols hmerge
            have h2 := dfSelect_ok_cols hsel
            rw [h1, h2]
            rfl
          have hcontains : df0.cols.contains "finish_position" = false := by
            rw [hcols]
            decide
          have hfp : dfGetCol df0 "finish_position" =
              Except.error (BuildError.keyError "finish_position") := by
            unfold dfGetCol
            rw [if_neg (by rw [hcontains]; exact Bool.false_ne_true)]
          rw [if_neg hnull, hfp]
          exact ⟨BuildError.keyError "finish_position", rfl⟩

/-- C7: `is_podium` is 1 exactly when the finish position is a non-null
integer at most 3 — positions 1, 2, 3 give 1, position 4 gives 0, and a null
finish position (DNF) gives 0. -/
theorem is_podium_characterization :
    (∀ v : Val, isPodiumOf v = Val.vint 1 ↔ ∃ n : Int, v = Val.vint n ∧ n ≤ 3) ∧
    isPodiumOf (Val.vint 1) = Val.vint 1 ∧ isPodiumOf (Val.vint 2) = Val.vint 1 ∧
    isPodiumOf (Val.vint 3) = Val.vint 1 ∧ isPodiumOf (Val.vint 4) = Val.vint 0 ∧
    isPodiumOf Val.vnull = Val.vint 0 := by
  refine ⟨?_, by decide, by decide, by decide, by decide, by decide⟩
  intro v
  cases v with
  | vnull => simp [isPodiumOf]
  | vstr s => simp [isPodiumOf]
  | vint n =>
    by_cases h : n ≤ 3
    · simp [isPodiumOf, h]
    · simp [isPodiumOf, h]

/-- C8: every successfully built modeling table has exactly the fixed
modeling column set race_id, year, round, race_date, race_name, circuit_id,
driver_id, constructor_id, finish_position, points, status, is_dnf,
is_podium, split; `grid` is a results-table column but not a modeling
column. -/
theorem modeling_output_columns :
    (∀ races results out, build_modeling_main races results = Except.ok out →
      out.cols = modelingColumns) ∧
    modelingColumns = ["race_id", "year", "round", "race_date", "race_name", "circuit_id",
      "driver_id", "constructor_id", "finish_position", "points", "status", "is_dnf",
      "is_podium", "split"] ∧
    "grid" ∈ resultsOutputColumns ∧
    "grid" ∉ modelingColumns := by
  refine ⟨?_, by decide, by decide, by decide⟩
  intro races results out hok
  unfold build_modeling_main at hok
  cases hsel : dfSelect races ["race_id", "race_date", "circuit_id", "race_name"] with
  | error e => rw [hsel] at hok; exact absurd hok (by simp)
  | ok racesSel =>
    rw [hsel] at hok
    dsimp only at hok
    cases hmerge : dfMerge results racesSel "race_id" with
    | error e => rw [hmerge] at hok; exact absurd hok (by simp)
    | ok df0 =>
      rw [hmerge] at hok
      dsimp only at hok
      cases hrd : dfGetCol df0 "race_date" with
      | error e => rw [hrd] at hok; exact absurd hok (by simp)
      | ok rd =>
        rw [hrd] at hok
        dsimp only at hok
        by_cases hnull : rd.any (fun v => v = Val.vnull) = true
        · rw [if_pos hnull] at hok; exact absurd hok (by simp)
        · rw [if_neg hnull] at hok
          cases hfp : dfGetCol df0 "finish_position" with
          | error e => rw [hfp] at hok; exact absurd hok (by simp)
          | ok fp0 =>
            rw [hfp] at hok
            dsimp only at hok
            cases hst : dfGetCol (dfSetCol (dfSetCol df0 "finish_position" (fp0.map int64CastVal))
                "is_podium" ((fp0.map int64CastVal).map isPodiumOf)) "status" with
            | error e => rw [hst] at hok; exact absurd hok (by simp)
            | ok st =>
              rw [hst] at hok
              dsimp only at hok
              cases hyr : dfGetCol (dfSetCol (dfSetCol (dfSetCol df0 "finish_position"
                  (fp0.map int64CastVal)) "is_podium" ((fp0.map int64CastVal).map isPodiumOf))
                  "is_dnf" (st.map isDnfOf)) "year" with
              | error e => rw [hyr] at hok; exact absurd hok (by simp)
              | ok yr =>
                rw [hyr] at hok
                dsimp only at hok
                cases hout : dfSelect (dfSetCol (dfSetCol (dfSetCol (dfSetCol df0
                    "finish_position" (fp0.map int64CastVal)) "is_podium"
                    ((fp0.map int64CastVal).map isPodiumOf)) "is_dnf" (st.map isDnfOf))
                    "split" (yr.map splitOfYear)) modelingColumns with
                | error e => rw [hout] at hok; exact absurd hok (by simp)
                | ok out0 =>
                  rw [hout] at hok
                  dsimp only at hok
                  by_cases hdup : hasDup ((dfSortValues out0
                      ["race_date", "race_id", "driver_id"]).rows.map
                      (fun r => (rowGet r "race_id", rowGet r "driver_id"))) = true
                  · rw [if_pos hdup] at hok; exact absurd hok (by simp)
                  · rw [if_neg hdup] at hok
                    simp only [Except.ok.injEq] at hok
                    have hcols0 := dfSelect_ok_cols hout
                    rw [← hok]
                    exact hcols0

/-- A one-row races dataframe on which the modeling build succeeds
end-to-end (its results side already carries a `finish_position` column). -/
def c8Races : DF :=
  { cols := ["race_id", "race_date", "circuit_id", "race_name"],
    rows := [[("race_id", Val.vstr "2024_1"), ("race_date", Val.vstr "2024-03-02"),
      ("circuit_id", Val.vstr "bahrain"), ("race_name", Val.vstr "Bahrain GP")]] }

/-- The matching one-row results dataframe. -/
def c8Results : DF :=
  { cols := ["race_id", "year", "round", "driver_id", "constructor_id",
      "finish_position", "points", "status"],
    rows := [[("race_id", Val.vstr "2024_1"), ("year", Val.vint 2024),
      ("round", Val.vint 1), ("driver_id", Val.vstr "max"),
      ("constructor_id", Val.vstr "rb"), ("finish_position", Val.vint 1),
      ("points", Val.vint 25), ("status", Val.vstr "Finished")]] }

/-- The modeling table built from `c8Races` and `c8Results`. -/
def c8Out : DF :=
  { cols := ["race_id", "year", "round", "race_date", "race_name", "circuit_id",
      "driver_id", "constructor_id", "finish_position", "points", "status", "is_dnf",
      "is_podium", "split"],
    rows := [[("race_id", Val.vstr "2024_1"), ("year", Val.vint 2024),
      ("round", Val.vint 1), ("race_date", Val.vstr "2024-03-02"),
      ("race_name", Val.vstr "Bahrain GP"), ("circuit_id", Val.vstr "bahrain"),
      ("driver_id", Val.vstr "max"), ("constructor_id", Val.vstr "rb"),
      ("finish_position", Val.vint 1), ("points", Val.vint 25),
      ("status", Val.vstr "Finished"), ("is_dnf", Val.vint 0),
      ("is_podium", Val.vint 1), ("split", Val.vstr "train")]] }

/-- Witness for C8: a concrete successful modeling build whose output
columns are exactly the modeling column set. -/
theorem modeling_output_columns_witness : c8Out.cols = modelingColumns :=
  modeling_output_columns.1 c8Races c8Results c8Out (by rfl)

/-- C9: a modeling row is tagged `test` exactly when its year is 2025, and
2025 is the most recent season of the ingested year range (2010-2025). -/
theorem split_test_iff_latest_season :
    (∀ y : Int, splitOfYear (Val.vint y) = Val.vstr "test" ↔ y = 2025) ∧
    ingestYears.contains 2025 = true ∧
    ingestYears.all (fun y => decide (y ≤ 2025)) = true := by
  refine ⟨?_, by decide, by decide⟩
  intro y
  unfold splitOfYear
  by_cases h : y = 2025
  · subst h
    simp
  · rw [if_neg ?_]
    · constructor
      · intro hcon
        exact absurd hcon (by simp)
      · intro hcon
        exact absurd hcon h
    · simp [h]

end F1
